import Mathlib

/-!
# Verification of the Wavelink node-management and event-dispatch core

Shallow embedding of `src/wavelink/meta.py` and `src/wavelink/node.py`
(the fork's two source files).  Python dictionaries are modelled as
association lists, Python exceptions as an explicit `PyErr` sum carried in
`Except`, and Python truthiness is spelled out wherever the source relies
on it (`if listeners:`, `if data["playlistInfo"]:`, `event or
func.__name__`, ...).  The `errors` and `player` modules of the repository
are not part of the provided sources; the few facts about them that the
claims need (the exception taxonomy, the `Track`/`TrackPlaylist`
constructors) are modelled from the spec and marked as such.
-/

set_option autoImplicit false

namespace Wavelink

/-- The Python exceptions that can surface from the embedded code.
`buildTrackError` carries the server-reported status and error text that
`node.py` interpolates into the exception message (lines 217-220);
`typeError` and `attributeError` arise in `meta.py`'s `listener` wrapper;
`nameError` models the lookup failure of an unbound module-level name;
`keyError` models a failed `dict[...]` subscript. -/
inductive PyErr where
  | nameError (missing : String)
  | attributeError
  | typeError
  | keyError (key : String)
  | buildTrackError (status : String) (error : String)
  deriving DecidableEq, Repr

/-! ## meta.py — the listener marker and the construction-time scan -/

/-- A Python function object as `WavelinkMixin.listener` sees it:
its `__name__`, whether `inspect.iscoroutinefunction` holds of it, and its
`__wavelink_listeners__` attribute (`none` = the attribute is absent, so
plain `getattr` raises `AttributeError`). -/
structure PyFunc where
  name : String
  isCoroutineFunction : Bool
  wavelinkListeners : Option (List String)
  deriving DecidableEq, Repr

/-- Python truthiness of the optional `event` argument of `listener`:
`None` and the empty string are falsy (`name = event or func.__name__`,
meta.py line 157). -/
def eventTruthy : Option String → Bool
  | none => false
  | some s => !s.isEmpty

/-- Shallow embedding of the inner `wrapper` of `WavelinkMixin.listener`
(meta.py lines 153-165), applied to a function `func` with the decorator
argument `event`:
* non-coroutine functions are rejected with `TypeError` (lines 154-155);
* `name = event or func.__name__` (line 157);
* `listeners = getattr(func, "__wavelink_listeners__")` with **no**
  default (line 159) raises `AttributeError` when the attribute is absent;
* a present non-empty list is appended to, a present empty (falsy) list is
  replaced by `[name]` (lines 160-163);
* the function itself is returned, with its updated attribute. -/
def listener (event : Option String) (func : PyFunc) : Except PyErr PyFunc :=
  if !func.isCoroutineFunction then
    .error .typeError
  else
    let name := if eventTruthy event then event.getD "" else func.name
    match func.wavelinkListeners with
    | none => .error .attributeError
    | some listeners =>
      if !listeners.isEmpty then
        .ok { func with wavelinkListeners := some (listeners ++ [name]) }
      else
        .ok { func with wavelinkListeners := some [name] }

/-- A member of a consuming class as `inspect.getmembers` yields it to
`WavelinkMixin.__new__`: the element's `__name__` and its
`__wavelink_listeners__` attribute if it has one (members without the
attribute are skipped by the `except AttributeError: continue` guard,
meta.py lines 32-35).  The class-level `__wavelink_listeners__` dict that
`__new__` itself stores is such an attribute-less member (a `dict` has no
`__wavelink_listeners__`), so it is not represented here. -/
structure Member where
  name : String
  markers : Option (List String)
  deriving DecidableEq, Repr

/-- The event-name → handler-names mapping, a Python dict modelled as an
association list in insertion order. -/
abbrev ListenerMap := List (String × List String)

/-- The dict update `listeners[listener].append(name)` with the
`KeyError` fallback `listeners[listener] = [name]` (meta.py lines 37-41):
append to the existing entry, or create it at the end of the dict. -/
def addListener (m : ListenerMap) (event : String) (handler : String) : ListenerMap :=
  match m with
  | [] => [(event, [handler])]
  | (e, hs) :: rest =>
    if e = event then (e, hs ++ [handler]) :: rest
    else (e, hs) :: addListener rest event handler

/-- The member scan of `WavelinkMixin.__new__` (meta.py lines 29-41):
fold over all declared members, skipping those without a
`__wavelink_listeners__` attribute, and record each marker under the
element's `__name__`. -/
def scanListeners (members : List Member) : ListenerMap :=
  members.foldl
    (fun acc el =>
      match el.markers with
      | none => acc
      | some els => els.foldl (fun acc ev => addListener acc ev el.name) acc)
    []

/-- A consuming class: its declared members and the class attribute
`cls.__wavelink_listeners__` (`none` before any instantiation). -/
structure MixinClass where
  members : List Member
  wavelinkListeners : Option ListenerMap
  deriving DecidableEq, Repr

/-- Shallow embedding of `WavelinkMixin.__new__` (meta.py lines 28-46):
every call performs the full member scan and assigns the result to
`cls.__wavelink_listeners__`; there is no guard consulting a previously
stored mapping.  Returns the updated class (the new instance itself
carries no per-instance copy — the mapping lives on the type). -/
def mixinNew (cls : MixinClass) : MixinClass :=
  { cls with wavelinkListeners := some (scanListeners cls.members) }

/-! ## node.py — module-level names

`node.py` opens with `import inspect`, `import logging`,
`from urllib.parse import quote`, `from .errors import *`,
`from .player import Track, TrackPlaylist`,
`from .websocket import WebSocket`, then binds `__log__` and `Node`.
There is no `import asyncio`, yet `get_tracks` executes
`await asyncio.sleep(0.2)` (line 169): whether that line raises
`NameError` depends only on whether the star-import re-exports a name
`asyncio`. -/

/-- Modelled from the spec: the `errors` module is not among the provided
sources; the spec's error-handling design (section 7) describes it as the
exception taxonomy only — a base exception plus the configuration,
track-build, dispatch and lifecycle error classes (the code refers to the
track-build one as `BuildTrackError` and the base one as
`WavelinkException`).  Its public names are therefore exception classes;
no `asyncio` binding leaks through the star-import. -/
def errorsModuleExports : List String :=
  ["WavelinkException", "ConfigurationError", "BuildTrackError",
   "DispatchError", "LifecycleError"]

/-- The names bound at module level in `node.py` (lines 23-35): its three
direct imports, the star-import of the errors taxonomy, the two player
types, the transport class, the logger and the class itself. -/
def nodeModuleGlobals : List String :=
  ["inspect", "logging", "quote"] ++ errorsModuleExports ++
    ["Track", "TrackPlaylist", "WebSocket", "__log__", "Node"]

/-- The `await asyncio.sleep(0.2)` statement of `get_tracks` (node.py
line 169): resolving the name `asyncio` in the module's globals fails,
so executing the statement raises `NameError` instead of sleeping. -/
def asyncioSleepLine : Except PyErr Unit :=
  if nodeModuleGlobals.contains "asyncio" then .ok () else .error (.nameError "asyncio")

/-! ## node.py — REST bodies and the player types -/

/-- An entry of the decoded body's `tracks` list:
`{track: base64Id, info: metadata}`. -/
structure TrackJson where
  track : String
  info : List (String × String)
  deriving DecidableEq, Repr

/-- The JSON value found under `playlistInfo`: `null` or an object
(association list of fields).  Python truthiness: `null` and the empty
object are falsy, a non-empty object is truthy. -/
inductive PlaylistInfoVal where
  | null
  | obj (fields : List (String × String))
  deriving DecidableEq, Repr

/-- Truthiness of `data["playlistInfo"]` (node.py line 175). -/
def PlaylistInfoVal.truthy : PlaylistInfoVal → Bool
  | .null => false
  | .obj fields => !fields.isEmpty

/-- A decoded `/loadtracks` response body.  `tracks = none` means the key
is absent, so `data.get("tracks", None)` yields `None`;
`playlistInfo = none` means that key is absent, so `data["playlistInfo"]`
raises `KeyError`. -/
structure LoadBody where
  tracks : Option (List TrackJson)
  playlistInfo : Option PlaylistInfoVal
  deriving DecidableEq, Repr

/-- Truthiness of `data.get("tracks", None)` (node.py line 171): falsy
when the key is absent (`None`) or maps to an empty list. -/
def LoadBody.tracksTruthy (d : LoadBody) : Bool :=
  match d.tracks with
  | none => false
  | some l => !l.isEmpty

/-- One HTTP response to the `/loadtracks` query: the status code and the
JSON-decoded body (`data = await resp.json()`). -/
structure RestResponse where
  status : Nat
  body : LoadBody
  deriving DecidableEq, Repr

/-- Modelled from the spec: the `player` module is not among the provided
sources.  Per the spec's glossary and RestClient contract, `Track` is a
domain payload constructed from a base64 identifier and decoded metadata,
opaque to this core beyond construction; it stores what its constructor
`Track(id_=..., info=...)` receives. -/
structure Track where
  id : String
  info : List (String × String)
  deriving DecidableEq, Repr

/-- Modelled from the spec: `TrackPlaylist` is the playlist aggregate the
RestClient contract returns for playlist results, constructed as
`TrackPlaylist(data=data)` from the whole decoded body. -/
structure TrackPlaylist where
  data : LoadBody
  deriving DecidableEq, Repr

/-- The successful outcomes of `get_tracks`: a playlist aggregate or a raw
list of tracks (`None` is represented by `Option.none` around this). -/
inductive SearchResult where
  | playlist (p : TrackPlaylist)
  | tracks (ts : List Track)
  deriving DecidableEq, Repr

/-! ## node.py — get_tracks -/

/-- The `while retries > 0` loop of `get_tracks` (node.py lines 157-169),
entered with `retries = 5 > 0`.  `resps` supplies the response to the
`attempt`-th HTTP GET.  Each iteration decodes the body into `data`; a
non-200 status decrements `retries` and then reaches the
`await asyncio.sleep(0.2)` line (which raises `NameError`, `asyncio`
being unbound); a 200 status breaks out.  Returns the final `retries`
together with the `data` left bound by the last iteration.  The function
is only applied to a positive budget (the source enters the loop with 5);
the `retries = 0` pattern is the conventional loop exit for an argument
the source never produces. -/
def getTracksLoop (resps : Nat → RestResponse) : Nat → Nat → Except PyErr (Nat × LoadBody)
  | attempt, retries =>
    let resp := resps attempt
    let data := resp.body
    if resp.status ≠ 200 then
      asyncioSleepLine.bind fun _ =>
        match retries with
        | r + 1 => if 0 < r then getTracksLoop resps (attempt + 1) r else .ok (0, data)
        | 0 => .ok (0, data)
    else
      .ok (retries, data)

/-- Shallow embedding of `Node.get_tracks` (node.py lines 138-187):
run the retry loop from `retries = 5`; afterwards return `None` when the
budget is exhausted or the body has no non-empty `tracks` list; return a
`TrackPlaylist` when `data["playlistInfo"]` is truthy; otherwise build a
`Track` from each `tracks` entry. -/
def get_tracks (resps : Nat → RestResponse) : Except PyErr (Option SearchResult) :=
  match getTracksLoop resps 0 5 with
  | .error e => .error e
  | .ok (retries, data) =>
    if retries = 0 ∨ data.tracksTruthy = false then
      .ok none
    else
      match data.playlistInfo with
      | none => .error (.keyError "playlistInfo")
      | some pi =>
        if pi.truthy then
          .ok (some (.playlist ⟨data⟩))
        else
          match data.tracks with
          | none => .error (.keyError "tracks")
          | some ts => .ok (some (.tracks (ts.map fun t => ⟨t.track, t.info⟩)))

/-! ## node.py — build_track -/

/-- One HTTP response to the `/decodetrack` query: status code and the
JSON-decoded body, a flat object modelled as an association list. -/
structure BuildResponse where
  status : Nat
  body : List (String × String)
  deriving DecidableEq, Repr

/-- Subscripting `data[key]` on a decoded flat JSON object: the first
binding of the key, if any (`none` models a raised `KeyError`). -/
def jsonGet (d : List (String × String)) (key : String) : Option String :=
  (d.find? fun p => p.1 == key).map fun p => p.2

/-- Shallow embedding of `Node.build_track` (node.py lines 189-223).
On a non-200 status the code interpolates `data["status"]` and then
`data["error"]` into the exception message before raising
`BuildTrackError` (lines 217-220), so a body lacking either key raises
`KeyError` instead (the `"status"` subscript is evaluated first).  On a
200 status it returns `Track(id_=identifier, info=data)`. -/
def build_track (identifier : String) (resp : BuildResponse) : Except PyErr Track :=
  let data := resp.body
  if ¬resp.status = 200 then
    match jsonGet data "status" with
    | none => .error (.keyError "status")
    | some s =>
      match jsonGet data "error" with
      | none => .error (.keyError "error")
      | some e => .error (.buildTrackError s e)
  else
    .ok { id := identifier, info := data }

/-! ## node.py — availability and penalty -/

/-- The penalty sub-object of a stats snapshot; only its `total` score is
read by the node. -/
structure PenaltyStats where
  total : ℚ
  deriving DecidableEq, Repr

/-- A load-report stats snapshot (`self.stats`); a present snapshot is a
truthy Python object. -/
structure Stats where
  penalty : PenaltyStats
  deriving DecidableEq, Repr

/-- The node state that `close`, `open`, stats updates and `penalty`
touch: the `available` flag (initially `True`, node.py line 93) and the
optional stats snapshot (initially `None`, line 95). -/
structure NodeState where
  available : Bool
  stats : Option Stats
  deriving DecidableEq, Repr

/-- The sentinel returned by `penalty` for unavailable or statless nodes:
the literal `9e30` (node.py line 121). -/
def sentinelPenalty : ℚ := 9 * 10 ^ 30

/-- Shallow embedding of the read-only property `Node.penalty` (node.py
lines 117-122): `if not self.available or not self.stats: return 9e30`,
with Python's short-circuit order, `else return self.stats.penalty.total`. -/
def penalty (n : NodeState) : ℚ :=
  match n.available, n.stats with
  | false, _ => sentinelPenalty
  | true, none => sentinelPenalty
  | true, some s => s.penalty.total

/-- Shallow embedding of `Node.close` (node.py lines 109-111): set
`available` to `False`; no other field is touched. -/
def nodeClose (n : NodeState) : NodeState :=
  { n with available := false }

/-- Shallow embedding of `Node.open` (node.py lines 113-115): set
`available` to `True`; no other field is touched. -/
def nodeOpen (n : NodeState) : NodeState :=
  { n with available := true }

/-- A stats update (`self.stats = ...`, performed by the transport layer
on load reports): replace the snapshot; no other field is touched. -/
def setStats (s : Option Stats) (n : NodeState) : NodeState :=
  { n with stats := s }

/-- The operations whose interleavings claim C5 quantifies over. -/
inductive NodeOp where
  | closeOp
  | openOp
  | statsOp (s : Option Stats)
  deriving DecidableEq, Repr

/-- Apply one operation to the node state. -/
def applyOp (n : NodeState) : NodeOp → NodeState
  | .closeOp => nodeClose n
  | .openOp => nodeOpen n
  | .statsOp s => setStats s n

/-- Apply a sequence of operations left to right. -/
def applyOps (n : NodeState) (ops : List NodeOp) : NodeState :=
  ops.foldl applyOp n

/-! ## node.py — on_event -/

/-- A registered node-level hook, as `on_event` distinguishes it: whether
`inspect.iscoroutinefunction` holds of it (node.py line 250).  `set_hook`
guarantees a stored hook is callable, hence truthy. -/
structure NodeHook where
  isCoroutineFunction : Bool
  deriving DecidableEq, Repr

/-- An inbound event as `on_event` inspects it: the truthiness of its
`player` back-reference (node.py line 244). -/
structure Event where
  player : Bool
  deriving DecidableEq, Repr

/-- One hook invocation recorded in dispatch order. -/
inductive HookCall where
  | playerHook
  | nodeHookAwaited
  | nodeHookSync
  deriving DecidableEq, Repr

/-- Shallow embedding of `Node.on_event` (node.py lines 239-253) as the
ordered log of hook invocations it performs: if the event carries a
truthy player reference, `await event.player.hook(event)` runs first;
then `if not self.hook: return`; a stored hook is awaited when it is a
coroutine function and called synchronously otherwise.  The function is
total: an absent node hook is a normal return, not an error. -/
def on_event (ev : Event) (hook : Option NodeHook) : List HookCall :=
  let calls := if ev.player then [HookCall.playerHook] else []
  match hook with
  | none => calls
  | some h =>
    if h.isCoroutineFunction then calls ++ [.nodeHookAwaited]
    else calls ++ [.nodeHookSync]

/-! ## node.py — destroy -/

/-- Modelled from the spec: the `player` module is not among the provided
sources; the core only needs each player's `destroy()` operation, which
may raise.  A player is identified by its guild id, and `destroyRaises`
says whether its `destroy()` raises when awaited. -/
structure PlayerModel where
  guildId : Nat
  destroyRaises : Bool
  deriving DecidableEq, Repr

/-- The background receive task of the transport (`self._websocket._task`);
`cancel()` on it may raise, which `destroy` swallows. -/
structure WsTask where
  cancelRaises : Bool
  deriving DecidableEq, Repr

/-- The transport handle as `destroy` inspects it: whether it holds a
(truthy) background task. -/
structure WebSocketModel where
  task : Option WsTask
  deriving DecidableEq, Repr

/-- The node state `destroy` reads and writes: the owned players mapping
(values in iteration order), the optional transport handle, the node's
identifier and the keys of the owning client's `nodes` registry. -/
structure NodeD where
  players : List PlayerModel
  websocket : Option WebSocketModel
  identifier : String
  clientNodes : List String
  deriving DecidableEq, Repr

/-- An exception escaping `Node.destroy`: the (unhandled) exception of a
player's `destroy()`, identified by that player's guild id, or the
`KeyError` of `del self._client.nodes[self.identifier]` when the
identifier is not registered. -/
inductive DestroyErr where
  | playerErr (guildId : Nat)
  | keyErr (identifier : String)
  deriving DecidableEq, Repr

/-- The observable outcome of one `destroy()` call: which players had
`destroy()` invoked on them (in order, including a raiser — the call is
made before the exception propagates), the exception that escaped
`destroy` if any, whether `_task.cancel()` was invoked, and the registry
contents afterwards. -/
structure DestroyOutcome where
  destroyCalls : List Nat
  error : Option DestroyErr
  taskCancelled : Bool
  registry : List String
  deriving DecidableEq, Repr

/-- The `for player in players.values(): await player.destroy()` loop
(node.py lines 277-278): players are destroyed sequentially, with no
exception handling, so the first raising player aborts the loop and its
exception propagates.  Returns the invoked players' guild ids and the
raiser's guild id, if any. -/
def destroyPlayers : List PlayerModel → List Nat × Option Nat
  | [] => ([], none)
  | p :: rest =>
    if p.destroyRaises then ([p.guildId], some p.guildId)
    else
      let (calls, err) := destroyPlayers rest
      (p.guildId :: calls, err)

/-- Shallow embedding of `Node.destroy` (node.py lines 273-286):
snapshot-copy the players mapping (`self.players.copy()`, line 275) and
destroy each in turn; a raising player's exception propagates at once,
skipping the task cancellation and the registry removal.  Otherwise
`try: if self._websocket and self._websocket._task:
self._websocket._task.cancel() except Exception: pass` swallows any
cancellation error, and `del self._client.nodes[self.identifier]`
removes the node's registry entry (raising `KeyError` only if the
identifier is not registered). -/
def nodeDestroy (n : NodeD) : DestroyOutcome :=
  let players := n.players
  let (calls, playerErr) := destroyPlayers players
  match playerErr with
  | some gid =>
    { destroyCalls := calls, error := some (.playerErr gid), taskCancelled := false,
      registry := n.clientNodes }
  | none =>
    let cancelled :=
      match n.websocket with
      | none => false
      | some ws => ws.task.isSome
    if n.clientNodes.contains n.identifier then
      { destroyCalls := calls, error := none, taskCancelled := cancelled,
        registry := n.clientNodes.erase n.identifier }
    else
      { destroyCalls := calls, error := some (.keyErr n.identifier),
        taskCancelled := cancelled, registry := n.clientNodes }

/-! ## Helper lemmas -/

/-- The backoff statement of `get_tracks` raises `NameError`: the name
`asyncio` is not among the module-level bindings of `node.py`. -/
theorem asyncioSleepLine_eq : asyncioSleepLine = .error (.nameError "asyncio") := by
  rfl

/-- A 200-status attempt breaks out of the retry loop at once, leaving
the budget untouched and the decoded body bound. -/
theorem getTracksLoop_200 (resps : Nat → RestResponse) (attempt retries : Nat)
    (h : (resps attempt).status = 200) :
    getTracksLoop resps attempt retries = .ok (retries, (resps attempt).body) := by
  unfold getTracksLoop
  simp [h]

/-- Destroying a list of players none of which raises destroys them all,
in order. -/
theorem destroyPlayers_ok (l : List PlayerModel)
    (h : ∀ p ∈ l, p.destroyRaises = false) :
    destroyPlayers l = (l.map PlayerModel.guildId, none) := by
  induction l with
  | nil => rfl
  | cons p rest ih =>
    have hp := h p (List.mem_cons_self p rest)
    have hrest : ∀ q ∈ rest, q.destroyRaises = false :=
      fun q hq => h q (List.mem_cons_of_mem p hq)
    simp [destroyPlayers, hp, ih hrest]

/-- Destroying a list of players whose first raiser is `p` invokes
destroy on the prefix and on `p`, then propagates `p`'s exception. -/
theorem destroyPlayers_raises (pre : List PlayerModel) (p : PlayerModel)
    (post : List PlayerModel) (hpre : ∀ q ∈ pre, q.destroyRaises = false)
    (hp : p.destroyRaises = true) :
    destroyPlayers (pre ++ p :: post)
      = (pre.map PlayerModel.guildId ++ [p.guildId], some p.guildId) := by
  induction pre with
  | nil => simp [destroyPlayers, hp]
  | cons q rest ih =>
    have hq := hpre q (List.mem_cons_self q rest)
    have hrest : ∀ r ∈ rest, r.destroyRaises = false :=
      fun r hr => hpre r (List.mem_cons_of_mem q hr)
    simp [destroyPlayers, hq, ih hrest]

/-! ## Claims -/

/-- Claim C1 (refuted as stated — code bug in the retry path): on a query
whose first response has a non-200 status, `get_tracks` does not wait
200ms, retry up to 5 attempts and return `None`; it raises
`NameError("asyncio")` at the `await asyncio.sleep(0.2)` line (node.py
line 169), because `node.py` never imports `asyncio`.  The retry budget
is therefore unreachable: sustained non-200 responses abort on the first
one. -/
theorem get_tracks_non200_raises_nameError (resps : Nat → RestResponse)
    (h : (resps 0).status ≠ 200) :
    get_tracks resps = .error (.nameError "asyncio") := by
  unfold get_tracks getTracksLoop
  simp [h, asyncioSleepLine_eq, Except.bind]

/-- Witness: a concrete environment answering every attempt with status
500 makes `get_tracks` raise `NameError` at once. -/
theorem get_tracks_non200_raises_nameError_witness :
    ((fun _ => (⟨500, ⟨some [], some .null⟩⟩ : RestResponse)) 0).status ≠ 200 ∧
    get_tracks (fun _ => ⟨500, ⟨some [], some .null⟩⟩) = .error (.nameError "asyncio") :=
  ⟨by decide,
   get_tracks_non200_raises_nameError (fun _ => ⟨500, ⟨some [], some .null⟩⟩) (by decide)⟩

/-- Claim C2 (refuted — code bug): applying the listener marker to any
coroutine function that does not already carry a `__wavelink_listeners__`
attribute — i.e. to every freshly declared handler, the decorator's
documented use — raises `AttributeError` instead of registering the
function: meta.py line 159 calls `getattr(func, "__wavelink_listeners__")`
without a default.  No event name is ever recorded, with or without an
explicit `event` argument. -/
theorem listener_fresh_function_attributeError (event : Option String) (f : PyFunc)
    (hc : f.isCoroutineFunction = true) (ha : f.wavelinkListeners = none) :
    listener event f = .error .attributeError := by
  simp [listener, hc, ha]

/-- Witness: decorating the fresh coroutine `on_node_ready` with no event
argument raises `AttributeError`. -/
theorem listener_fresh_function_attributeError_witness :
    (⟨"on_node_ready", true, none⟩ : PyFunc).isCoroutineFunction = true ∧
    listener none ⟨"on_node_ready", true, none⟩ = .error .attributeError :=
  ⟨rfl, listener_fresh_function_attributeError none ⟨"on_node_ready", true, none⟩ rfl rfl⟩

/-- Claim C9 (confirmed): applying the listener marker to any function
that is not a coroutine function raises `TypeError` at decoration time
(meta.py lines 154-155), before the attribute lookup and registration
code runs — the result carries no registration, whatever the `event`
argument and whatever marker list the function already has. -/
theorem listener_rejects_non_coroutine (event : Option String) (f : PyFunc)
    (h : f.isCoroutineFunction = false) :
    listener event f = .error .typeError := by
  simp [listener, h]

/-- Witness: decorating a plain (non-coroutine) function named `h` with
an explicit event raises `TypeError`. -/
theorem listener_rejects_non_coroutine_witness :
    (⟨"h", false, some ["on_node_ready"]⟩ : PyFunc).isCoroutineFunction = false ∧
    listener (some "on_track_start") ⟨"h", false, some ["on_node_ready"]⟩
      = .error .typeError :=
  ⟨rfl,
   listener_rejects_non_coroutine (some "on_track_start")
     ⟨"h", false, some ["on_node_ready"]⟩ rfl⟩

/-- Claim C4 counterexample: the member scan is not skipped on later
instantiations.  A class with one marked member gets the expected mapping
on first instantiation; if its members change before the next
instantiation (here: the marked member is removed), that instantiation
stores the freshly scanned empty mapping instead of reusing the stored
one — `__new__` never consults `cls.__wavelink_listeners__`. -/
theorem mixinNew_rescans_counterexample :
    (mixinNew ⟨[⟨"handler_a", some ["on_node_ready"]⟩], none⟩).wavelinkListeners
      = some [("on_node_ready", ["handler_a"])] ∧
    (mixinNew
        { mixinNew ⟨[⟨"handler_a", some ["on_node_ready"]⟩], none⟩ with
          members := [] }).wavelinkListeners
      = some [] ∧
    (some ([] : ListenerMap)
      ≠ some [("on_node_ready", ["handler_a"])]) := by
  refine ⟨rfl, rfl, by decide⟩

/-- Claim C4 (amended): the event-name-to-handler-names mapping is
recomputed by the full member scan on **every** instantiation and stored
on the type, overwriting and never consulting any previously stored
mapping; all instances of the class share the type-level mapping, and for
a class whose members do not change repeated instantiation stores the
identical mapping. -/
theorem mixinNew_rescans_every_instantiation (cls : MixinClass)
    (stored : Option ListenerMap) :
    (mixinNew { cls with wavelinkListeners := stored }).wavelinkListeners
      = some (scanListeners cls.members) ∧
    mixinNew (mixinNew cls) = mixinNew cls := by
  exact ⟨rfl, rfl⟩

/-- Claim C5 (confirmed): after any interleaved sequence of `close()`,
`open()` and stats updates, `penalty` returns the sentinel `9e30` whenever
`available` is false or no stats snapshot exists, and
`stats.penalty.total` otherwise; `penalty` is a pure read (a Lean function
of the state), and `close`/`open` only set `available`, leaving the stats
snapshot untouched. -/
theorem penalty_spec (n : NodeState) (ops : List NodeOp) :
    ((applyOps n ops).available = false → penalty (applyOps n ops) = sentinelPenalty) ∧
    ((applyOps n ops).stats = none → penalty (applyOps n ops) = sentinelPenalty) ∧
    (∀ s, (applyOps n ops).available = true → (applyOps n ops).stats = some s →
      penalty (applyOps n ops) = s.penalty.total) ∧
    nodeClose (applyOps n ops) = { applyOps n ops with available := false } ∧
    nodeOpen (applyOps n ops) = { applyOps n ops with available := true } := by
  obtain ⟨a, st⟩ := applyOps n ops
  refine ⟨?_, ?_, ?_, rfl, rfl⟩ <;> cases a <;> cases st <;>
    simp [penalty, nodeClose, nodeOpen]

/-- Witness: starting unavailable and statless, a stats update followed by
`open()` yields `penalty = 7`, the snapshot's total. -/
theorem penalty_spec_witness :
    (applyOps ⟨false, none⟩ [.statsOp (some ⟨⟨7⟩⟩), .openOp]).available = true ∧
    (applyOps ⟨false, none⟩ [.statsOp (some ⟨⟨7⟩⟩), .openOp]).stats = some ⟨⟨7⟩⟩ ∧
    penalty (applyOps ⟨false, none⟩ [.statsOp (some ⟨⟨7⟩⟩), .openOp]) = (7 : ℚ) :=
  ⟨rfl, rfl,
   (penalty_spec ⟨false, none⟩ [.statsOp (some ⟨⟨7⟩⟩), .openOp]).2.2.1 ⟨⟨7⟩⟩ rfl rfl⟩

/-- Claim C8 (confirmed): for every event, a truthy player reference makes
the player's hook the first awaited call; a registered node-level hook is
delivered exactly once after all player-level delivery — awaited when it
is a coroutine function, called synchronously otherwise; and with no
node-level hook `on_event` returns normally, having performed only the
player-level delivery. -/
theorem on_event_spec (ev : Event) (hook : Option NodeHook) :
    (ev.player = true → (on_event ev hook).head? = some .playerHook) ∧
    (∀ h, hook = some h →
      on_event ev hook = on_event ev none ++
        [if h.isCoroutineFunction then HookCall.nodeHookAwaited else HookCall.nodeHookSync]) ∧
    (hook = none → on_event ev hook = if ev.player then [HookCall.playerHook] else []) := by
  obtain ⟨p⟩ := ev
  refine ⟨?_, ?_, ?_⟩
  · intro hp
    subst hp
    cases hook with
    | none => rfl
    | some h => obtain ⟨b⟩ := h; cases b <;> rfl
  · rintro ⟨b⟩ rfl
    cases b <;> cases p <;> rfl
  · rintro rfl
    cases p <;> rfl

/-- Witness: an event with a player, dispatched with a coroutine node
hook, logs the player hook first and the awaited node hook last. -/
theorem on_event_spec_witness :
    (on_event ⟨true⟩ (some ⟨true⟩)).head? = some .playerHook ∧
    on_event ⟨true⟩ (some ⟨true⟩) = on_event ⟨true⟩ none ++ [HookCall.nodeHookAwaited] :=
  ⟨(on_event_spec ⟨true⟩ (some ⟨true⟩)).1 rfl,
   (on_event_spec ⟨true⟩ (some ⟨true⟩)).2.1 ⟨true⟩ rfl⟩

/-- Claim C6 counterexample: a 200 response with non-null `playlistInfo`
does **not** always yield a playlist aggregate.  With an empty `tracks`
list the empty-result guard fires first and `get_tracks` returns `None`;
and with a non-null but *empty-object* `playlistInfo` (which Python's
truthiness test treats like null) a non-empty `tracks` list comes back as
a raw track list. -/
theorem get_tracks_playlist_counterexample :
    get_tracks (fun _ => ⟨200, ⟨some [], some (.obj [("name", "p")])⟩⟩) = .ok none ∧
    get_tracks (fun _ => ⟨200, ⟨some [⟨"t1", []⟩], some (.obj [])⟩⟩)
      = .ok (some (.tracks [⟨"t1", []⟩])) :=
  ⟨rfl, rfl⟩

/-- Claim C6 (amended): for every 200-status first response whose decoded
body has a non-empty `tracks` list and a *truthy* `playlistInfo` (present,
non-null and a non-empty object — the code tests truthiness, not
non-nullness), `get_tracks` returns the `TrackPlaylist` aggregate built
from the whole body, never a raw list; an empty or absent `tracks` list
instead yields `None` even when `playlistInfo` is non-null. -/
theorem get_tracks_playlist_spec (resps : Nat → RestResponse)
    (h200 : (resps 0).status = 200)
    (htr : (resps 0).body.tracksTruthy = true)
    (pi : PlaylistInfoVal)
    (hpi : (resps 0).body.playlistInfo = some pi)
    (hpt : pi.truthy = true) :
    get_tracks resps = .ok (some (.playlist ⟨(resps 0).body⟩)) := by
  unfold get_tracks
  rw [getTracksLoop_200 resps 0 5 h200]
  simp [htr, hpi, hpt]

/-- Witness: a 200 response carrying one track and a named playlist
object comes back as a playlist aggregate. -/
theorem get_tracks_playlist_spec_witness :
    get_tracks (fun _ => ⟨200, ⟨some [⟨"t1", []⟩], some (.obj [("name", "p")])⟩⟩)
      = .ok (some (.playlist ⟨⟨some [⟨"t1", []⟩], some (.obj [("name", "p")])⟩⟩)) :=
  get_tracks_playlist_spec
    (fun _ => ⟨200, ⟨some [⟨"t1", []⟩], some (.obj [("name", "p")])⟩⟩)
    rfl rfl (.obj [("name", "p")]) rfl rfl

/-- Claim C7 counterexample: a non-200 response whose body lacks the
`status` key makes `build_track` raise `KeyError`, not the typed
`BuildTrackError` — so `BuildTrackError` and a successful `Track` are not
the only two outcomes of a non-200 response. -/
theorem build_track_missing_status_counterexample :
    build_track "abc" ⟨404, []⟩ = .error (.keyError "status") ∧
    ∀ s e, build_track "abc" ⟨404, []⟩ ≠ .error (.buildTrackError s e) := by
  refine ⟨rfl, ?_⟩
  intro s e hEq
  rw [show build_track "abc" ⟨404, []⟩ = Except.error (PyErr.keyError "status") from rfl]
    at hEq
  simp at hEq

/-- Claim C7 (amended): `build_track` on a 200 response returns a `Track`
whose identifier equals the input identifier (and whose info is the
decoded body); on any non-200 response whose decoded body carries both a
`status` and an `error` key it raises a `BuildTrackError` holding exactly
those server-reported values, without retrying — under that proviso these
are the only two outcomes. -/
theorem build_track_spec (identifier : String) (resp : BuildResponse) :
    (resp.status = 200 → build_track identifier resp = .ok ⟨identifier, resp.body⟩) ∧
    (∀ s e, resp.status ≠ 200 → jsonGet resp.body "status" = some s →
      jsonGet resp.body "error" = some e →
      build_track identifier resp = .error (.buildTrackError s e)) := by
  constructor
  · intro h
    simp [build_track, h]
  · intro s e hs hst herr
    simp [build_track, hs, hst, herr]

/-- Witness: a 200 decode returns the track with the queried identifier;
a 404 decode with a well-formed error body raises the typed error. -/
theorem build_track_spec_witness :
    build_track "abc" ⟨200, [("title", "x")]⟩ = .ok ⟨"abc", [("title", "x")]⟩ ∧
    build_track "abc" ⟨404, [("status", "404"), ("error", "oops")]⟩
      = .error (.buildTrackError "404" "oops") :=
  ⟨(build_track_spec "abc" ⟨200, [("title", "x")]⟩).1 rfl,
   (build_track_spec "abc" ⟨404, [("status", "404"), ("error", "oops")]⟩).2 "404" "oops"
     (by decide) rfl rfl⟩

/-- Claim C10 (confirmed): on a non-200 decode response, a body without a
`status` key raises `KeyError("status")` (the first subscript of the
message f-string), a body with `status` but without `error` raises
`KeyError("error")`, and the typed `BuildTrackError` branch is reached
only when both keys are present. -/
theorem build_track_missing_keys (identifier : String) (resp : BuildResponse)
    (hs : resp.status ≠ 200) :
    (jsonGet resp.body "status" = none →
      build_track identifier resp = .error (.keyError "status")) ∧
    (∀ s, jsonGet resp.body "status" = some s → jsonGet resp.body "error" = none →
      build_track identifier resp = .error (.keyError "error")) ∧
    (∀ s e, build_track identifier resp = .error (.buildTrackError s e) →
      jsonGet resp.body "status" = some s ∧ jsonGet resp.body "error" = some e) := by
  refine ⟨?_, ?_, ?_⟩
  · intro h
    simp [build_track, hs, h]
  · intro s h1 h2
    simp [build_track, hs, h1, h2]
  · intro s e h
    cases h1 : jsonGet resp.body "status" with
    | none => simp [build_track, hs, h1] at h
    | some s0 =>
      cases h2 : jsonGet resp.body "error" with
      | none => simp [build_track, hs, h1, h2] at h
      | some e0 =>
        simp [build_track, hs, h1, h2] at h
        obtain ⟨rfl, rfl⟩ := h
        exact ⟨rfl, rfl⟩

/-- Witness: with status 404, an empty body gives `KeyError("status")`
and a body carrying only `status` gives `KeyError("error")`. -/
theorem build_track_missing_keys_witness :
    build_track "abc" ⟨404, []⟩ = .error (.keyError "status") ∧
    build_track "abc" ⟨404, [("status", "404")]⟩ = .error (.keyError "error") :=
  ⟨(build_track_missing_keys "abc" ⟨404, []⟩ (by decide)).1 rfl,
   (build_track_missing_keys "abc" ⟨404, [("status", "404")]⟩ (by decide)).2.1 "404"
     rfl rfl⟩

/-- Claim C3 counterexample: on a node owning three players whose second
raises, `destroy()` invokes destroy only on the first two — the third
player is never destroyed, the receive task is not cancelled and the node
stays in the owning client's registry. -/
theorem nodeDestroy_counterexample :
    nodeDestroy ⟨[⟨1, false⟩, ⟨2, true⟩, ⟨3, false⟩], some ⟨some ⟨false⟩⟩,
        "main", ["main"]⟩
      = { destroyCalls := [1, 2], error := some (.playerErr 2),
          taskCancelled := false, registry := ["main"] } ∧
    ([1, 2] : List Nat) ≠ [1, 2, 3] ∧ (["main"] : List String) ≠ [] :=
  ⟨rfl, by decide, by decide⟩

/-- Claim C3 (amended): `destroy()` iterates over a snapshot copy of the
players mapping and destroys the players sequentially, but an exception
from one player's destroy propagates immediately: destroy is invoked on
the players before the raiser and on the raiser only, the receive task is
not cancelled and the node stays registered.  When no player's destroy
raises, every owned player is destroyed, any error from cancelling the
background receive task is suppressed (the outcome is the same whether or
not the task's `cancel()` raises), and the node's entry is removed from
the owning client's registry exactly once. -/
theorem nodeDestroy_spec (n : NodeD)
    (hreg : n.clientNodes.contains n.identifier = true) :
    ((∀ p ∈ n.players, p.destroyRaises = false) →
      (nodeDestroy n).destroyCalls = n.players.map PlayerModel.guildId ∧
      (nodeDestroy n).error = none ∧
      (nodeDestroy n).registry = n.clientNodes.erase n.identifier ∧
      (nodeDestroy n).registry.count n.identifier
        = n.clientNodes.count n.identifier - 1) ∧
    (∀ pre p post, n.players = pre ++ p :: post →
      (∀ q ∈ pre, q.destroyRaises = false) → p.destroyRaises = true →
      (nodeDestroy n).destroyCalls = pre.map PlayerModel.guildId ++ [p.guildId] ∧
      (nodeDestroy n).error = some (.playerErr p.guildId) ∧
      (nodeDestroy n).taskCancelled = false ∧
      (nodeDestroy n).registry = n.clientNodes) := by
  have hmem : n.identifier ∈ n.clientNodes := by simpa using hreg
  constructor
  · intro hok
    have hd := destroyPlayers_ok n.players hok
    simp [nodeDestroy, hd, hmem, List.count_erase_self]
  · intro pre p post hsplit hpre hp
    have hd := destroyPlayers_raises pre p post hpre hp
    simp [nodeDestroy, hsplit, hd]

/-- Witness: a node owning two well-behaved players and a raising-cancel
receive task destroys both players, swallows the cancel error and leaves
the registry without its entry. -/
theorem nodeDestroy_spec_witness :
    ((["main", "backup"] : List String).contains "main" = true) ∧
    (∀ p ∈ [(⟨1, false⟩ : PlayerModel), ⟨2, false⟩], p.destroyRaises = false) ∧
    ((nodeDestroy ⟨[⟨1, false⟩, ⟨2, false⟩], some ⟨some ⟨true⟩⟩,
          "main", ["main", "backup"]⟩).destroyCalls = [1, 2] ∧
      (nodeDestroy ⟨[⟨1, false⟩, ⟨2, false⟩], some ⟨some ⟨true⟩⟩,
          "main", ["main", "backup"]⟩).error = none ∧
      (nodeDestroy ⟨[⟨1, false⟩, ⟨2, false⟩], some ⟨some ⟨true⟩⟩,
          "main", ["main", "backup"]⟩).registry = ["backup"] ∧
      (nodeDestroy ⟨[⟨1, false⟩, ⟨2, false⟩], some ⟨some ⟨true⟩⟩,
          "main", ["main", "backup"]⟩).registry.count "main"
        = (["main", "backup"] : List String).count "main" - 1) :=
  ⟨by decide, by decide,
   (nodeDestroy_spec ⟨[⟨1, false⟩, ⟨2, false⟩], some ⟨some ⟨true⟩⟩,
       "main", ["main", "backup"]⟩ (by decide)).1 (by decide)⟩

end Wavelink
